import Mathlib

/-!
Verification of the moderation-gated publication and notification fan-out
pipeline of the django-musette forum application, as implemented in
`musette/views.py` (`NewTopicView.post`, `NewCommentView.post`,
`DeleteCommentView.post`, `SetNotifications`) and
`musette/templatetags/forum_tags.py` (`get_pending_notifications`).

The embedding is shallow: Django ORM rows become Lean structures, querysets
become lists, and each view handler becomes a pure function from its inputs
(plus oracles for the mail transport and the pub/sub broker) to an outcome
record describing the rows written, the emails attempted, the published
payload and whether the handler reached its success response.
-/

namespace Musette

/-- A user as the pipeline sees one: identifier and email address. -/
structure UserRec where
  id : Nat
  email : String
deriving DecidableEq, Repr

/-- A `Comment` row, restricted to the fields the pipeline reads:
`idcomment`, `topic_id` and the author (`user_id`). -/
structure Comment where
  idcomment : Nat
  topic_id : Nat
  user : Nat
deriving DecidableEq, Repr

/-- A `Topic` row, restricted to the fields the comment pipeline reads:
`idtopic`, `title`, `slug` and the author (`topic.user`). -/
structure Topic where
  idtopic : Nat
  title : String
  slug : String
  user : UserRec
deriving DecidableEq, Repr

/-- A `Notification` row: recipient (`iduser`), weak target reference
(`idobject`), read flag (`is_view`) and the kind flags
(`is_topic` / `is_comment`). -/
structure Notification where
  iduser : Nat
  idobject : Nat
  is_view : Bool
  is_topic : Bool
  is_comment : Bool
deriving DecidableEq, Repr

/-- A `Forum` row, restricted to the fields the moderation gate reads:
the `is_moderate` flag and the moderator set (`forum.moderators.all()`),
kept in iteration order. -/
structure Forum where
  is_moderate : Bool
  moderators : List UserRec
deriving Repr

/-- Modelled from the spec: `utils.get_users_topic` lives in `musette/utils.py`,
which is not under `src/`; only its call site (`views.py` line 589) is.
Spec section 4.1: "scan all comments on the topic in creation order; for each
comment's author, append to the result if not already present and not equal
to the posting user." `comments` is the comment table in creation order;
`iduser` is the posting user. -/
def get_users_topic (comments : List Comment) (topic : Topic) (iduser : Nat) :
    List Nat :=
  comments.foldl
    (fun acc c =>
      if c.topic_id = topic.idtopic ∧ c.user ∉ acc ∧ c.user ≠ iduser then
        acc ++ [c.user]
      else acc)
    []

/-- Django's `Truncator(text).chars(100)` (`views.py` line 586), specialised
to text without Unicode combining characters: a string of at most `num`
characters is returned unchanged; a longer one is cut to its first `num - 1`
characters with the one-character ellipsis appended, so the result is exactly
`num` characters long. -/
def truncChars (num : Nat) (s : List Char) : List Char :=
  if s.length ≤ num then s else s.take (num - 1) ++ ['…']

/-- The payload serialised and published on the `notifications` channel
(`views.py` lines 627-641). -/
structure Payload where
  description : List Char
  topic : String
  idtopic : Nat
  slug : String
  settings_static : String
  username : String
  forum : String
  lista_us : List Nat
  photo : String
deriving DecidableEq, Repr

/-- The inputs of one `NewCommentView.post` run after the comment row itself
has been persisted (the pipeline aborts before any notification work if that
persist fails): the comment table used by the resolver, the topic, the
posting user's identifier / display name / photo, the forum name and static
base path from settings, the configured sender address `EMAIL_MUSETTE`, the
new comment's body and its fresh identifier. -/
structure CommentCtx where
  comments : List Comment
  topic : Topic
  posterId : Nat
  username : String
  photo : String
  forumName : String
  staticUrl : String
  emailFrom : String
  body : List Char
  idcomment : Nat
deriving Repr

/-- Everything one `NewCommentView.post` run does after persisting the
comment: the final recipient identifier list `lista_us`, the email address
list `lista_email`, the `Notification` rows saved, the addresses the email
send was issued to, the payload published on the `notifications` channel
(`none` when the publish call raised), and whether the handler reached its
success response. -/
structure CommentOutcome where
  lista_us : List Nat
  lista_email : List String
  rows : List Notification
  emailed : List String
  published : Option Payload
  success : Bool
deriving DecidableEq, Repr

/-- The resolver output extended with the topic author (`views.py` lines
589-600): if the author is absent from `lista_us`, the author's identifier is
appended to it and the author's email to `lista_email`; otherwise
`user_original_topic` is reset to `None`. Returns
(`lista_us`, `lista_email`, `user_original_topic`). -/
def resolvedWithAuthor (ctx : CommentCtx) : List Nat × List String × Option Nat :=
  let lista0 := get_users_topic ctx.comments ctx.topic ctx.posterId
  if ctx.topic.user.id ∈ lista0 then
    (lista0, [], none)
  else
    (lista0 ++ [ctx.topic.user.id], [ctx.topic.user.email], some ctx.topic.user.id)

/-- The notification-save loop (`views.py` lines 602-609): for each `user` in
`lista_us`, a row is saved only when `user_original_topic != request.user.id`
— a condition that does not depend on the loop variable. -/
def commentRows (lista_us : List Nat) (uo : Option Nat)
    (posterId idcomment : Nat) : List Notification :=
  lista_us.foldl
    (fun acc u =>
      if uo ≠ some posterId then
        acc ++ [⟨u, idcomment, false, false, true⟩]
      else acc)
    []

/-- One `NewCommentView.post` run after the comment row is persisted
(`views.py` lines 573-644), with the pub/sub broker modelled by the flag
`publishOk`: resolve recipients, extend with the topic author, save the
notification rows, issue the email send when `EMAIL_MUSETTE` is configured,
then publish the realtime payload — `r.publish` has no surrounding handler,
so when it raises (`publishOk = false`) nothing is published and the success
response is never reached, but everything before it already happened. The
mail transport is assumed to deliver on this path. -/
def newCommentOutcome (ctx : CommentCtx) (publishOk : Bool) : CommentOutcome :=
  let r := resolvedWithAuthor ctx
  let rows := commentRows r.1 r.2.2 ctx.posterId ctx.idcomment
  let emailed := if ctx.emailFrom ≠ "" then r.2.1 else []
  let payload : Payload :=
    ⟨truncChars 100 ctx.body, ctx.topic.title, ctx.topic.idtopic,
      ctx.topic.slug, ctx.staticUrl, ctx.username, ctx.forumName, r.1,
      ctx.photo⟩
  ⟨r.1, r.2.1, rows, emailed,
    if publishOk then some payload else none, publishOk⟩

/-- The moderator-email loop of `NewTopicView.post` (`views.py` lines
391-407): for each moderator in order, when `EMAIL_MUSETTE` is configured a
`send_mail(..., fail_silently=False)` call is issued to the moderator's
address; `transport` says whether that call delivers, and a failing call
raises, so the loop stops there. Returns the addresses a send was issued to
and whether the loop finished without raising. -/
def sendModeratorMails (emailFrom : String) (transport : String → Bool) :
    List UserRec → List String × Bool
  | [] => ([], true)
  | m :: ms =>
    if emailFrom = "" then sendModeratorMails emailFrom transport ms
    else if transport m.email then
      let r := sendModeratorMails emailFrom transport ms
      (m.email :: r.1, r.2)
    else ([m.email], false)

/-- The observable outcome of one `NewTopicView.post` run on a valid form:
the `moderate` flag the topic would carry, the moderator addresses a send was
issued to, whether `obj.save()` was reached (the topic persisted), and
whether the success response was reached. -/
structure TopicOutcome where
  moderate : Bool
  attempted : List String
  saved : Bool
  success : Bool
deriving DecidableEq, Repr

/-- The moderation gate and save of `NewTopicView.post` (`views.py` lines
382-416): a non-moderated forum or a moderator author publishes immediately
with no emails; otherwise `moderate` is `false` and the moderator-email loop
runs before `obj.save()`, with no exception handler, so a raising send
prevents the save and the success response. -/
def newTopicOutcome (forum : Forum) (authorId : Nat) (emailFrom : String)
    (transport : String → Bool) : TopicOutcome :=
  if forum.is_moderate then
    if authorId ∈ forum.moderators.map UserRec.id then
      ⟨true, [], true, true⟩
    else
      let r := sendModeratorMails emailFrom transport forum.moderators
      ⟨false, r.1, r.2, r.2⟩
  else
    ⟨true, [], true, true⟩

/-- The persistent rows `DeleteCommentView.post` touches. -/
structure DeleteState where
  comments : List Comment
  notifications : List Notification
deriving DecidableEq, Repr

/-- `DeleteCommentView.post` (`views.py` lines 693-699): delete the comment
rows matching both the requested identifier and the requesting user, then
delete every notification row whose `idobject` equals the requested comment
identifier — with no kind-flag or ownership condition on the latter. -/
def deleteCommentView (s : DeleteState) (requester idcomment : Nat) :
    DeleteState :=
  ⟨s.comments.filter
      (fun c => !(c.idcomment == idcomment && c.user == requester)),
    s.notifications.filter (fun n => !(n.idobject == idcomment))⟩

/-- `SetNotifications` / `AllNotification.get` (`views.py` lines 718, 736):
`Notification.objects.filter(iduser=iduser).update(is_view=True)`. -/
def markAllViewed (iduser : Nat) (rows : List Notification) :
    List Notification :=
  rows.map
    (fun n => if n.iduser = iduser then
        ⟨n.iduser, n.idobject, true, n.is_topic, n.is_comment⟩
      else n)

/-- `get_pending_notifications` (`forum_tags.py` lines 174-180):
`Notification.objects.filter(is_view=False, iduser=user).count()`. -/
def countPending (iduser : Nat) (rows : List Notification) : Nat :=
  (rows.filter (fun n => !n.is_view && n.iduser == iduser)).length

/-- Modelled from the spec's words, for refinement comparison only (the
source uses `Truncator.chars`, a character cut): "truncated to at most 100
characters, with the truncation breaking at a word boundary and a trailing
ellipsis marker appended when truncation occurred; bodies of 100 characters
or fewer pass through unchanged". The kept text must be a prefix of the body
that stops at a word boundary: either the next character of the body is a
space, or the kept text itself ends in one. -/
def isWordBoundaryTruncation (limit : Nat) (body out : List Char) : Bool :=
  if body.length ≤ limit then out == body
  else
    decide (out.length ≤ limit) &&
    (out.getLast? == some '…') &&
    (body.take (out.length - 1) == out.dropLast) &&
    ((body.get? (out.length - 1) == some ' ') ||
      (out.dropLast.getLast? == some ' '))

end Musette

namespace Musette

/-! ### Helper lemmas -/

/-- When the sender address is configured and the transport delivers to every
moderator, the moderator-email loop issues exactly one send per moderator, in
order, and finishes without raising. -/
theorem sendModeratorMails_all_ok (emailFrom : String)
    (transport : String → Bool) (ms : List UserRec) (hfrom : emailFrom ≠ "")
    (hok : ∀ m ∈ ms, transport m.email = true) :
    sendModeratorMails emailFrom transport ms = (ms.map UserRec.email, true) := by
  induction ms with
  | nil => simp [sendModeratorMails]
  | cons m ms ih =>
    have hm := hok m (List.mem_cons_self m ms)
    have ih' := ih (fun x hx => hok x (List.mem_cons_of_mem m hx))
    simp [sendModeratorMails, hfrom, hm, ih']

/-- When the sender address is configured and the transport fails for some
moderator, the moderator-email loop raises. -/
theorem sendModeratorMails_snd_eq_false (emailFrom : String)
    (transport : String → Bool) (ms : List UserRec) (hfrom : emailFrom ≠ "")
    (hfail : ∃ m ∈ ms, transport m.email = false) :
    (sendModeratorMails emailFrom transport ms).2 = false := by
  induction ms with
  | nil => simp at hfail
  | cons m ms ih =>
    obtain ⟨x, hx, hxf⟩ := hfail
    rcases List.mem_cons.mp hx with hx' | hx'
    · subst hx'
      simp [sendModeratorMails, hfrom, hxf]
    · cases ht : transport m.email
      · simp [sendModeratorMails, hfrom, ht]
      · simp [sendModeratorMails, hfrom, ht]
        exact ih ⟨x, hx', hxf⟩

end Musette

namespace Musette

/-! ### Claim theorems -/

/-- Claim C1 (code evaluation at the failing input): topic 10 is authored by
user 7, user 3 commented earlier, and user 7 (the author) posts a new
comment. The Recipient Resolver returns `[3]`, yet the pipeline appends the
author to `lista_us` (so the published payload carries `[3, 7]`), appends the
author's address to `lista_email`, issues the email send to the author about
the author's own comment, and — because `user_original_topic` now equals the
poster — writes zero `Notification` rows, not even for user 3. This
contradicts the claim that neither list gains an author entry when the
author is the poster. -/
theorem C1_author_is_poster_gains_entries :
    get_users_topic [⟨1, 10, 3⟩] ⟨10, "T1", "t1", ⟨7, "a@x"⟩⟩ 7 = [3] ∧
    (newCommentOutcome
        ⟨[⟨1, 10, 3⟩], ⟨10, "T1", "t1", ⟨7, "a@x"⟩⟩, 7, "u7", "p7.png", "f1",
          "/static/", "from@x", ['h', 'i'], 99⟩ true) =
      ⟨[3, 7], ["a@x"], [], ["a@x"],
        some ⟨['h', 'i'], "T1", 10, "t1", "/static/", "u7", "f1", [3, 7],
          "p7.png"⟩, true⟩ := by
  decide

/-- Claim C2 (code evaluation at the failing input): topic 20 is authored by
user 4, user 9 commented earlier, and user 4 (the author) posts a new
comment. The resolved recipient set is `[9]`, non-empty, yet zero
`Notification` rows are persisted: the save guard
`user_original_topic != request.user.id` is false for every loop iteration,
so no recipient gets a row — contradicting "at least one row is written
whenever the resolved set is non-empty". -/
theorem C2_nonempty_resolved_zero_rows :
    get_users_topic [⟨2, 20, 9⟩] ⟨20, "T2", "t2", ⟨4, "b@x"⟩⟩ 4 ≠ [] ∧
    (newCommentOutcome
        ⟨[⟨2, 20, 9⟩], ⟨20, "T2", "t2", ⟨4, "b@x"⟩⟩, 4, "u4", "p4.png", "f2",
          "/static/", "from@x", ['o', 'k'], 50⟩ true).rows = [] := by
  decide

/-- Claim C8 (code evaluation at the failing input): topic 30 is authored by
user 6; users 2 and 8 commented earlier (user 2 twice), and user 6 (the
author) posts a new comment. The resolver output `[2, 8]` is duplicate-free
and poster-free, but the pipeline then appends the author — who is the
poster — so the final recipient list `[2, 8, 6]` contains the posting user's
identifier, contradicting the claim. -/
theorem C8_final_list_contains_poster :
    (newCommentOutcome
        ⟨[⟨3, 30, 2⟩, ⟨4, 30, 8⟩, ⟨5, 30, 2⟩], ⟨30, "T8", "t8", ⟨6, "c@x"⟩⟩,
          6, "u6", "p6.png", "f8", "/static/", "from@x", ['h', 'i'], 60⟩
        true).lista_us = [2, 8, 6] ∧
    6 ∈ (newCommentOutcome
        ⟨[⟨3, 30, 2⟩, ⟨4, 30, 8⟩, ⟨5, 30, 2⟩], ⟨30, "T8", "t8", ⟨6, "c@x"⟩⟩,
          6, "u6", "p6.png", "f8", "/static/", "from@x", ['h', 'i'], 60⟩
        true).lista_us := by
  decide

/-- Claim C3 is false as stated: on a moderated forum with moderators `m1`
and `m2` and a non-moderator author, a transport that fails on `m1` makes
the handler raise out of `send_mail(..., fail_silently=False)`: `m2` is
never attempted, the topic is not saved, and no success response is
produced. -/
theorem C3_counterexample :
    newTopicOutcome ⟨true, [⟨1, "m1"⟩, ⟨2, "m2"⟩]⟩ 5 "from@x"
      (fun e => e != "m1") = ⟨false, ["m1"], false, false⟩ := by
  decide

/-- Claim C3 as amended: on a moderated forum with a non-moderator author,
when the sender address is configured and the transport fails for some
moderator, the unhandled `send_mail` exception prevents the topic from being
saved and the request from reporting success (and the loop stops at the
first failure, so later moderators are not attempted). -/
theorem C3_mail_failure_blocks_topic (forum : Forum) (authorId : Nat)
    (emailFrom : String) (transport : String → Bool)
    (hmod : forum.is_moderate = true)
    (hnotmod : authorId ∉ forum.moderators.map UserRec.id)
    (hfrom : emailFrom ≠ "")
    (hfail : ∃ m ∈ forum.moderators, transport m.email = false) :
    (newTopicOutcome forum authorId emailFrom transport).saved = false ∧
    (newTopicOutcome forum authorId emailFrom transport).success = false := by
  have h2 := sendModeratorMails_snd_eq_false emailFrom transport
    forum.moderators hfrom hfail
  simp [newTopicOutcome, hmod, hnotmod, h2]

/-- Witness for C3_mail_failure_blocks_topic at the concrete moderated forum
with moderators `n1`, `n2`, author 5 and a transport failing on `n1`. -/
theorem C3_mail_failure_blocks_topic_witness :
    (newTopicOutcome ⟨true, [⟨1, "n1"⟩, ⟨2, "n2"⟩]⟩ 5 "from@x"
        (fun e => e != "n1")).saved = false ∧
    (newTopicOutcome ⟨true, [⟨1, "n1"⟩, ⟨2, "n2"⟩]⟩ 5 "from@x"
        (fun e => e != "n1")).success = false :=
  C3_mail_failure_blocks_topic _ _ _ _ (by decide) (by decide) (by decide)
    ⟨⟨1, "n1"⟩, by decide, by decide⟩

/-- Claim C4: with the sender address configured and a transport that
delivers to every moderator, the moderation gate behaves as specified — a
non-moderated forum publishes immediately with zero sends; a moderated forum
with a moderator author publishes immediately with zero sends; otherwise the
topic is held (`moderate = false`) and exactly one email is attempted per
moderator of the forum, in order. -/
theorem C4_moderation_gate (forum : Forum) (authorId : Nat)
    (emailFrom : String) (transport : String → Bool) (hfrom : emailFrom ≠ "")
    (hok : ∀ m ∈ forum.moderators, transport m.email = true) :
    (forum.is_moderate = false →
      newTopicOutcome forum authorId emailFrom transport =
        ⟨true, [], true, true⟩) ∧
    (forum.is_moderate = true → authorId ∈ forum.moderators.map UserRec.id →
      newTopicOutcome forum authorId emailFrom transport =
        ⟨true, [], true, true⟩) ∧
    (forum.is_moderate = true → authorId ∉ forum.moderators.map UserRec.id →
      newTopicOutcome forum authorId emailFrom transport =
        ⟨false, forum.moderators.map UserRec.email, true, true⟩) := by
  have hall := sendModeratorMails_all_ok emailFrom transport
    forum.moderators hfrom hok
  refine ⟨fun h => ?_, fun h hin => ?_, fun h hout => ?_⟩
  · simp [newTopicOutcome, h]
  · simp [newTopicOutcome, h, hin]
  · simp [newTopicOutcome, h, hout, hall]

/-- Witness for C4_moderation_gate: the third branch at a concrete moderated
forum with moderators `w1`, `w2`, non-moderator author 5, configured sender
and an always-delivering transport. -/
theorem C4_moderation_gate_witness :
    newTopicOutcome ⟨true, [⟨1, "w1"⟩, ⟨2, "w2"⟩]⟩ 5 "from@x"
      (fun _ => true) = ⟨false, ["w1", "w2"], true, true⟩ :=
  (C4_moderation_gate ⟨true, [⟨1, "w1"⟩, ⟨2, "w2"⟩]⟩ 5 "from@x"
    (fun _ => true) (by decide) (by decide)).2.2 rfl (by decide)

end Musette

namespace Musette

/-- Claim C5 is false as stated: at a concrete comment-create event (topic 40
authored by user 11, poster 12) where the broker raises, the `Notification`
row for user 11 — written before the publish call — is persisted, but the
unhandled `r.publish` exception means the handler never reaches its success
response, contradicting "the request-level response still indicates
success". -/
theorem C5_counterexample :
    (newCommentOutcome
        ⟨[⟨6, 40, 12⟩], ⟨40, "T5", "t5", ⟨11, "d@x"⟩⟩, 12, "u12", "p12.png",
          "f5", "/static/", "from@x", ['o', 'k'], 70⟩ false).rows =
      [⟨11, 70, false, false, true⟩] ∧
    (newCommentOutcome
        ⟨[⟨6, 40, 12⟩], ⟨40, "T5", "t5", ⟨11, "d@x"⟩⟩, 12, "u12", "p12.png",
          "f5", "/static/", "from@x", ['o', 'k'], 70⟩ false).success =
      false := by
  decide

/-- Claim C5 as amended: a publish failure leaves the `Notification` rows and
the email send — both performed before the publish call — exactly as in the
successful run, but nothing is published and the unhandled exception prevents
the success response, for every comment-create event. -/
theorem C5_publish_failure_blocks_response (ctx : CommentCtx) :
    (newCommentOutcome ctx false).rows = (newCommentOutcome ctx true).rows ∧
    (newCommentOutcome ctx false).emailed =
      (newCommentOutcome ctx true).emailed ∧
    (newCommentOutcome ctx false).published = none ∧
    (newCommentOutcome ctx false).success = false := by
  simp [newCommentOutcome]

/-- Claim C6 is false as stated: a `Notification` row marked as a topic
notification (`is_topic = true`) whose `idobject` is 5 is deleted by the
comment-delete of comment 5 — the delete filters on `idobject` alone, with no
kind-flag condition, so topic notifications with a colliding identifier are
not left unchanged. -/
theorem C6_counterexample :
    (⟨1, 5, false, true, false⟩ : Notification).is_topic = true ∧
    (deleteCommentView ⟨[], [⟨1, 5, false, true, false⟩]⟩ 2 5).notifications =
      [] := by
  decide

/-- Claim C6 as amended: deleting a comment removes exactly the
`Notification` rows whose `idobject` equals that comment's identifier,
regardless of their kind flags — a row survives if and only if it was
present and its `idobject` differs. -/
theorem C6_delete_by_idobject (s : DeleteState) (requester idcomment : Nat)
    (n : Notification) :
    n ∈ (deleteCommentView s requester idcomment).notifications ↔
      n ∈ s.notifications ∧ n.idobject ≠ idcomment := by
  simp [deleteCommentView, List.mem_filter]

/-- Claim C7 is false as stated: a 101-character single-word body is cut by
`Truncator.chars(100)` in the middle of the word (first 99 characters plus
the ellipsis), which is not a word-boundary truncation in the sense of the
spec's words. -/
theorem C7_counterexample :
    isWordBoundaryTruncation 100 (List.replicate 101 'a')
      (truncChars 100 (List.replicate 101 'a')) = false := by
  decide

/-- Claim C7 as amended: the published description is the comment body
unchanged when it has at most 100 characters; a longer body is cut at a
fixed character position — its first 99 characters followed by the
one-character ellipsis, 100 characters in total — not at a word boundary. -/
theorem C7_char_cut (s : List Char) :
    (s.length ≤ 100 → truncChars 100 s = s) ∧
    (100 < s.length →
      truncChars 100 s = s.take 99 ++ ['…'] ∧
        (truncChars 100 s).length = 100) := by
  constructor
  · intro h
    simp [truncChars, h]
  · intro h
    have h' : ¬s.length ≤ 100 := by omega
    refine ⟨by simp [truncChars, h'], ?_⟩
    simp only [truncChars, h', if_false]
    rw [List.length_append, List.length_take]
    simp
    omega

/-- Witness for C7_char_cut at a 5-character body (pass-through) and a
101-character body (character cut). -/
theorem C7_char_cut_witness :
    truncChars 100 (List.replicate 5 'a') = List.replicate 5 'a' ∧
    truncChars 100 (List.replicate 101 'a') =
      (List.replicate 101 'a').take 99 ++ ['…'] :=
  ⟨(C7_char_cut (List.replicate 5 'a')).1 (by decide),
    ((C7_char_cut (List.replicate 101 'a')).2 (by decide)).1⟩

/-- Claim C9: for every prior store contents and every user, marking all of
that user's notifications viewed leaves the user with zero pending
notifications, and marking again is a no-op. -/
theorem C9_mark_all_viewed (rows : List Notification) (u : Nat) :
    countPending u (markAllViewed u rows) = 0 ∧
    markAllViewed u (markAllViewed u rows) = markAllViewed u rows := by
  constructor
  · have hall : ∀ x ∈ markAllViewed u rows,
        ¬((!x.is_view && x.iduser == u) = true) := by
      intro x hx
      obtain ⟨n, _, rfl⟩ := List.mem_map.mp hx
      by_cases h : n.iduser = u <;> simp [h]
    simp [countPending, List.filter_eq_nil_iff.mpr hall]
  · induction rows with
    | nil => rfl
    | cons n t ih =>
      by_cases h : n.iduser = u <;>
        simp [markAllViewed, h] at ih ⊢ <;> exact ih

end Musette

namespace Musette

/-- Claim C10: when the requester is not the author of any comment carrying
the requested identifier, the ownership-filtered comment delete matches
nothing — the comment table is unchanged — yet every `Notification` row whose
`idobject` equals the requested identifier is deleted anyway: the
notification delete is unconditional on ownership and on the comment's
existence. -/
theorem C10_nonauthor_delete (s : DeleteState) (requester idcomment : Nat)
    (h : ∀ c ∈ s.comments, c.idcomment = idcomment → c.user ≠ requester) :
    (deleteCommentView s requester idcomment).comments = s.comments ∧
    ∀ n ∈ s.notifications, n.idobject = idcomment →
      n ∉ (deleteCommentView s requester idcomment).notifications := by
  constructor
  · apply List.filter_eq_self.mpr
    intro c hc
    simp only [Bool.not_eq_eq_eq_not, Bool.not_true, Bool.and_eq_false_imp,
      beq_iff_eq, Bool.not_eq_true']
    intro hid
    simp [h c hc hid]
  · intro n _ hid hmem
    have := (List.mem_filter.mp hmem).2
    simp [hid] at this

/-- Witness for C10_nonauthor_delete: user 4 requests deletion of comment 5,
authored by user 3; the comment row survives while the notification row
targeting comment 5 is removed. -/
theorem C10_nonauthor_delete_witness :
    (deleteCommentView ⟨[⟨5, 1, 3⟩], [⟨9, 5, false, false, true⟩]⟩ 4
        5).comments = [⟨5, 1, 3⟩] ∧
    (⟨9, 5, false, false, true⟩ : Notification) ∉
      (deleteCommentView ⟨[⟨5, 1, 3⟩], [⟨9, 5, false, false, true⟩]⟩ 4
        5).notifications :=
  ⟨(C10_nonauthor_delete ⟨[⟨5, 1, 3⟩], [⟨9, 5, false, false, true⟩]⟩ 4 5
      (by decide)).1,
    (C10_nonauthor_delete ⟨[⟨5, 1, 3⟩], [⟨9, 5, false, false, true⟩]⟩ 4 5
      (by decide)).2 ⟨9, 5, false, false, true⟩ (by decide) rfl⟩

end Musette
